import Mathlib

/-
Verification of the settings-persistence layer and menu/callback state machine
of the pump-short-bot repository (src/main.py), shallowly embedded in Lean 4.

Stored values are JSON-like data; Python dicts are modelled as association
lists with unique keys maintained by construction (insertion order preserved,
as in Python 3.7+).  Python code that can raise an uncaught exception is
modelled with Option (none = the call raises).
-/

namespace PumpBot

/-- JSON-like values, as produced by json.load / consumed by json.dump. -/
inductive JValue where
  | null
  | bool (b : Bool)
  | int (n : Int)
  | str (s : String)
  | arr (xs : List JValue)
  | obj (kvs : List (String × JValue))

/-- Whether a value is a JSON object: models Python isinstance(raw, dict). -/
def JValue.isObj : JValue → Bool
  | .obj _ => true
  | _ => false

/-- Python dict assignment d[k] = v on a string-keyed dict: replaces the
value in place when the key is present, otherwise appends the pair. -/
def dictSet : List (String × JValue) → String → JValue → List (String × JValue)
  | [], k, v => [(k, v)]
  | p :: rest, k, v => if p.1 = k then (k, v) :: rest else p :: dictSet rest k v

/-- Python d.get(k): the value stored under key k, if any. -/
def dictGet? : List (String × JValue) → String → Option JValue
  | [], _ => none
  | p :: rest, k => if p.1 = k then some p.2 else dictGet? rest k

/-- Python base.update(other): existing keys are overridden in place,
new keys are appended in iteration order. -/
def dictUpdate : List (String × JValue) → List (String × JValue) → List (String × JValue)
  | base, [] => base
  | base, kv :: rest => dictUpdate (dictSet base kv.1 kv.2) rest

/-- The UserSettings dataclass of src/main.py.  Python dataclasses do not
enforce field types at runtime, so each field holds a JSON value. -/
structure UserSettings where
  notifications : JValue
  profile : JValue
  timeframe : JValue
  pump_pct : JValue
  volume_bucket : JValue
  marketcap : JValue
  coins_scope : JValue
  mode : JValue

/-- The field names of the UserSettings dataclass, in declaration order. -/
def fieldNames : List String :=
  ["notifications", "profile", "timeframe", "pump_pct",
   "volume_bucket", "marketcap", "coins_scope", "mode"]

/-- DEFAULT_SETTINGS = UserSettings(): the dataclass defaults. -/
def DEFAULT_SETTINGS : UserSettings :=
  { notifications := .bool true
    profile := .str "normal"
    timeframe := .str "5m"
    pump_pct := .int 10
    volume_bucket := .str "50k-200k"
    marketcap := .str ">10M"
    coins_scope := .str "top100"
    mode := .str "short" }

/-- dataclasses.asdict applied to a UserSettings instance. -/
def asdict (s : UserSettings) : List (String × JValue) :=
  [("notifications", s.notifications), ("profile", s.profile),
   ("timeframe", s.timeframe), ("pump_pct", s.pump_pct),
   ("volume_bucket", s.volume_bucket), ("marketcap", s.marketcap),
   ("coins_scope", s.coins_scope), ("mode", s.mode)]

/-- UserSettings(**kw): Python raises TypeError when a keyword is not a
dataclass field; otherwise missing fields take their dataclass defaults. -/
def userSettingsOfKwargs (kw : List (String × JValue)) : Option UserSettings :=
  if ∀ p ∈ kw, p.1 ∈ fieldNames then
    some
      { notifications := (dictGet? kw "notifications").getD (.bool true)
        profile := (dictGet? kw "profile").getD (.str "normal")
        timeframe := (dictGet? kw "timeframe").getD (.str "5m")
        pump_pct := (dictGet? kw "pump_pct").getD (.int 10)
        volume_bucket := (dictGet? kw "volume_bucket").getD (.str "50k-200k")
        marketcap := (dictGet? kw "marketcap").getD (.str ">10M")
        coins_scope := (dictGet? kw "coins_scope").getD (.str "top100")
        mode := (dictGet? kw "mode").getD (.str "short") }
  else none

/-- The state of the durable settings file at SETTINGS_PATH: absent,
present but not valid JSON, or present with parsed content. -/
inductive TableFile where
  | missing
  | unparsable
  | content (v : JValue)

/-- The body of src/main.py def _load_all_settings: a missing file, a file
that fails to parse, and parsed content that is not a dict all yield the
empty dict. -/
def load_all_settings : TableFile → List (String × JValue)
  | .missing => []
  | .unparsable => []
  | .content (.obj kvs) => kvs
  | .content _ => []

/-- The body of src/main.py def _save_all_settings: json.dump of the whole
table to a temp file followed by os.replace, i.e. an atomic replacement of
the file content by the serialized table. -/
def save_all_settings (data : List (String × JValue)) : TableFile :=
  .content (.obj data)

/-- The soft merge inside get_user_settings: merged = asdict(DEFAULT_SETTINGS)
updated with raw when raw is a dict, untouched otherwise. -/
def mergeRaw (raw : JValue) : List (String × JValue) :=
  match raw with
  | .obj kvs => dictUpdate (asdict DEFAULT_SETTINGS) kvs
  | _ => asdict DEFAULT_SETTINGS

/-- src/main.py def get_user_settings: read the table, take the entry for
str(user_id) (default the empty dict), soft-merge it over the defaults when
it is a dict, and rebuild a UserSettings from the merged keyword dict. -/
def get_user_settings (user_id : Int) (f : TableFile) : Option UserSettings :=
  userSettingsOfKwargs
    (mergeRaw ((dictGet? (load_all_settings f) (toString user_id)).getD (.obj [])))

/-- src/main.py def set_user_settings: read the table, store
asdict(new_settings) under str(user_id), write the whole table back. -/
def set_user_settings (user_id : Int) (new_settings : UserSettings)
    (f : TableFile) : TableFile :=
  let all_data := load_all_settings f
  save_all_settings (dictSet all_data (toString user_id) (.obj (asdict new_settings)))

/-- Whether a value is a JSON boolean. -/
def JValue.isBoolVal : JValue → Bool
  | .bool _ => true
  | _ => false

/-- Whether a value is a string drawn from the given list. -/
def JValue.isStrIn (v : JValue) (l : List String) : Bool :=
  match v with
  | .str s => l.contains s
  | _ => false

/-- Whether a value is an integer drawn from the given list. -/
def JValue.isIntIn (v : JValue) (l : List Int) : Bool :=
  match v with
  | .int n => l.contains n
  | _ => false

/-- Every field of a record lies in its documented enumerated domain. -/
def domainValid (s : UserSettings) : Bool :=
  s.notifications.isBoolVal &&
  s.profile.isStrIn ["conservative", "normal", "aggressive"] &&
  s.timeframe.isStrIn ["1m", "5m", "15m"] &&
  s.pump_pct.isIntIn [5, 10, 20] &&
  s.volume_bucket.isStrIn ["<50k", "50k-200k", ">200k"] &&
  s.marketcap.isStrIn [">10M", ">50M", "all"] &&
  s.coins_scope.isStrIn ["top10", "top100", "all"] &&
  s.mode.isStrIn ["short", "long", "both"]

/-- Python truthiness of a JSON value. -/
def JValue.truthy : JValue → Bool
  | .null => false
  | .bool b => b
  | .int n => n != 0
  | .str s => s != ""
  | .arr xs => !xs.isEmpty
  | .obj kvs => !kvs.isEmpty

/-- Python `not v` as applied in the toggle_notifications branch. -/
def pyNot (v : JValue) : JValue := .bool (!v.truthy)

mutual

/-- Python repr of a JSON value, as used by str() on containers.  String
escaping inside repr is not modelled; no claim evaluates it. -/
def pyRepr : JValue → String
  | .null => "None"
  | .bool true => "True"
  | .bool false => "False"
  | .int n => toString n
  | .str s => "\x27" ++ s ++ "\x27"
  | .arr xs => "[" ++ pyReprArr xs ++ "]"
  | .obj kvs => "\x7b" ++ pyReprObj kvs ++ "\x7d"

/-- Comma-separated reprs of list elements. -/
def pyReprArr : List JValue → String
  | [] => ""
  | [x] => pyRepr x
  | x :: y :: rest => pyRepr x ++ ", " ++ pyReprArr (y :: rest)

/-- Comma-separated reprs of dict entries. -/
def pyReprObj : List (String × JValue) → String
  | [] => ""
  | [p] => "\x27" ++ p.1 ++ "\x27: " ++ pyRepr p.2
  | p :: q :: rest => "\x27" ++ p.1 ++ "\x27: " ++ pyRepr p.2 ++ ", " ++ pyReprObj (q :: rest)

end

/-- Python str() of a JSON value, as interpolated by f-strings. -/
def pyStr : JValue → String
  | .str s => s
  | v => pyRepr v

/-- Python v == "t" where the right operand is a string literal. -/
def JValue.eqStr (v : JValue) (t : String) : Bool :=
  match v with
  | .str u => u = t
  | _ => false

/-- Python `v in (t1, ..., tn)` over a tuple of string literals. -/
def JValue.inStrs (v : JValue) (ts : List String) : Bool :=
  ts.any (fun t => v.eqStr t)

/-- Python v + m where v came from a JSON field and m is an int literal:
defined on ints and bools (bool is an int subtype); other operands raise
TypeError. -/
def pyAddInt? (v : JValue) (m : Int) : Option Int :=
  match v with
  | .int n => some (n + m)
  | .bool b => some ((if b then 1 else 0) + m)
  | _ => none

/-- Whether the character list pat comes first in the character list cs. -/
def leadsWith : List Char → List Char → Bool
  | [], _ => true
  | _ :: _, [] => false
  | a :: as, b :: bs => if a = b then leadsWith as bs else false

/-- Python data.startswith(pat). -/
def pyStartswith (data pat : String) : Bool :=
  leadsWith pat.data data.data

/-- The characters after the first colon of the list, if a colon occurs. -/
def afterColon : List Char → List Char
  | [] => []
  | c :: rest => if c = ':' then rest else afterColon rest

/-- Python data.split(":", 1)[1].  Every call site first checks a
startswith pattern that contains a colon, so a colon is always present;
on colon-free input this model returns "" where Python would raise. -/
def splitTail (data : String) : String :=
  String.mk (afterColon data.data)

/-- Digits of a Python int literal body, most significant first. -/
def digitsVal? : List Char → Option Nat
  | [] => none
  | cs =>
    cs.foldl
      (fun acc c =>
        match acc with
        | none => none
        | some n => if c.isDigit then some (n * 10 + (c.toNat - 48)) else none)
      (some 0)

/-- Python int(w): an optional sign followed by decimal digits.  The
whitespace-padded and underscore-grouped forms accepted by Python never
arise from the fixed callback tokens and are not modelled. -/
def pyInt? (w : String) : Option Int :=
  match w.data with
  | '+' :: rest => (digitsVal? rest).map Int.ofNat
  | '-' :: rest => (digitsVal? rest).map (fun n => -(n : Int))
  | cs => (digitsVal? cs).map Int.ofNat

/-- src/main.py def status_text. -/
def status_text (s : UserSettings) : String :=
  "⚙️ Текущие настройки:\n" ++
  "• Уведомления: " ++ (if s.notifications.truthy then "ВКЛ" else "ВЫКЛ") ++ "\n" ++
  "• Профиль: " ++ pyStr s.profile ++ "\n" ++
  "• Таймфрейм: " ++ pyStr s.timeframe ++ "\n" ++
  "• Рост: >" ++ pyStr s.pump_pct ++ "%\n" ++
  "• Объём: " ++ pyStr s.volume_bucket ++ "\n" ++
  "• Капитализация: " ++ pyStr s.marketcap ++ "\n" ++
  "• Монеты: " ++ pyStr s.coins_scope ++ "\n" ++
  "• Режим сигналов: " ++ pyStr s.mode ++ "\n"

/-- An inline keyboard button: a label and its callback token. -/
structure Button where
  label : String
  callback_data : String

/-- An InlineKeyboardMarkup: rows of buttons. -/
abbrev Markup := List (List Button)

/-- src/main.py def build_main_menu. -/
def build_main_menu (s : UserSettings) : Markup :=
  [[⟨if s.notifications.truthy then "✅ Уведомления: ВКЛ" else "⛔ Уведомления: ВЫКЛ",
     "toggle_notifications"⟩],
   [⟨"Профиль: " ++ pyStr s.profile, "menu_profile"⟩,
    ⟨"TF: " ++ pyStr s.timeframe, "menu_timeframe"⟩],
   [⟨"Рост: >" ++ pyStr s.pump_pct ++ "%", "menu_pump"⟩,
    ⟨"Объём: " ++ pyStr s.volume_bucket, "menu_volume"⟩],
   [⟨"Капа: " ++ pyStr s.marketcap, "menu_marketcap"⟩,
    ⟨"Монеты: " ++ pyStr s.coins_scope, "menu_coins"⟩],
   [⟨"Режим: " ++ pyStr s.mode, "menu_mode"⟩],
   [⟨"📣 Тестовый сигнал", "test_signal"⟩],
   [⟨"🔄 Обновить экран", "refresh"⟩, ⟨"♻️ Сброс", "reset"⟩]]

/-- src/main.py def build_submenu: one row per item, then a back row.
The title parameter of the Python function is unused by it. -/
def build_submenu (items : List (String × String)) : Markup :=
  items.map (fun p => [⟨p.1, p.2⟩]) ++ [[⟨"⬅️ Назад", "back"⟩]]

/-- src/main.py def build_test_signal_text.  none models the uncaught
TypeError that Python raises when pump_pct + 7 is applied to a non-number. -/
def build_test_signal_text (s : UserSettings) : Option String :=
  let direction := if s.mode.inStrs ["short", "both"] then "SHORT" else "LONG"
  let confidence :=
    if s.profile.eqStr "conservative" then "HIGH"
    else if s.profile.eqStr "normal" then "MEDIUM" else "LOW"
  match pyAddInt? s.pump_pct 7 with
  | none => none
  | some pumpPlus7 =>
    let reasons :=
      ["рост " ++ toString pumpPlus7 ++ "% за " ++ pyStr s.timeframe,
       "объём " ++
         (if s.volume_bucket.eqStr "50k-200k" then "~120k"
          else if s.volume_bucket.eqStr "<50k" then "~30k" else "~450k"),
       "верхний фитиль на свече (пример)",
       "объём начал снижаться (пример)",
       "подтверждение 1 свечой (пример)"]
    some
      ("🚨 *TEST SIGNAL*\n" ++
       "*COIN:* TESTCOIN/USDT\n" ++
       "*Direction:* " ++ direction ++ "\n" ++
       "*Timeframe:* " ++ pyStr s.timeframe ++ "\n" ++
       "*Confidence:* " ++ confidence ++ "\n\n" ++
       "*Filters:* profile=" ++ pyStr s.profile ++
       ", coins=" ++ pyStr s.coins_scope ++
       ", mcap=" ++ pyStr s.marketcap ++
       ", vol=" ++ pyStr s.volume_bucket ++
       ", pump=>" ++ pyStr s.pump_pct ++ "%\n\n" ++
       "*Reasons:*\n" ++
       String.intercalate "\n" (reasons.map (fun r => "• " ++ r)) ++
       "\n\n" ++
       "_Это тестовое сообщение. Реальные сигналы подключим после добавления сканера бирж._")

/-- src/main.py def is_allowed: open access when the configured set is
empty, else membership of the effective chat id (None when the update
carries no chat, and None is never a member of a set of ints). -/
def is_allowed (allowedChatIds : List Int) (effectiveChat : Option Int) : Bool :=
  if allowedChatIds.isEmpty then true
  else
    match effectiveChat with
    | some chat_id => allowedChatIds.contains chat_id
    | none => false

/-- The observable outcome of one on_callback invocation: the record passed
to set_user_settings if any, the text and markup of the edited message, and
the extra message sent by the test_signal branch. -/
structure CallbackResult where
  saved : Option UserSettings
  text : String
  markup : Markup
  extraMessage : Option String

/-- The control-panel header plus the current status text. -/
def panelText (s : UserSettings) : String :=
  "🤖 Панель управления ботом.\n\n" ++ status_text s

/-- The shared tail of the value-setting branches of on_callback: save the
mutated record and confirm. -/
def saveResult (s : UserSettings) : Option CallbackResult :=
  some ⟨some s, "✅ Сохранено.\n\n" ++ status_text s, build_main_menu s, none⟩

/-- The settings-and-rendering core of src/main.py async def on_callback,
as a function of the callback token and the user's loaded settings.
none models an uncaught exception escaping the handler. -/
def on_callback (data : String) (s : UserSettings) : Option CallbackResult :=
  if data = "refresh" then
    some ⟨none, panelText s, build_main_menu s, none⟩
  else if data = "back" then
    some ⟨none, panelText s, build_main_menu s, none⟩
  else if data = "reset" then
    some ⟨some DEFAULT_SETTINGS,
          "♻️ Сброшено к настройкам по умолчанию.\n\n" ++ status_text DEFAULT_SETTINGS,
          build_main_menu DEFAULT_SETTINGS, none⟩
  else if data = "toggle_notifications" then
    let s' := { s with notifications := pyNot s.notifications }
    some ⟨some s', panelText s', build_main_menu s', none⟩
  else if data = "test_signal" then
    match build_test_signal_text s with
    | none => none
    | some t => some ⟨none, panelText s, build_main_menu s, some t⟩
  else if data = "menu_profile" then
    some ⟨none, "Выбери профиль:",
          build_submenu [("🟢 conservative", "set_profile:conservative"),
                         ("🟡 normal", "set_profile:normal"),
                         ("🔴 aggressive", "set_profile:aggressive")], none⟩
  else if data = "menu_timeframe" then
    some ⟨none, "Выбери таймфрейм:",
          build_submenu [("1m", "set_tf:1m"), ("5m", "set_tf:5m"),
                         ("15m", "set_tf:15m")], none⟩
  else if data = "menu_pump" then
    some ⟨none, "Выбери порог роста:",
          build_submenu [(">5%", "set_pump:5"), (">10%", "set_pump:10"),
                         (">20%", "set_pump:20")], none⟩
  else if data = "menu_volume" then
    some ⟨none, "Выбери фильтр объёма:",
          build_submenu [("<50k", "set_vol:<50k"), ("50k-200k", "set_vol:50k-200k"),
                         (">200k", "set_vol:>200k")], none⟩
  else if data = "menu_marketcap" then
    some ⟨none, "Выбери фильтр капитализации:",
          build_submenu [(">10M", "set_mc:>10M"), (">50M", "set_mc:>50M"),
                         ("all", "set_mc:all")], none⟩
  else if data = "menu_coins" then
    some ⟨none, "Выбери список монет:",
          build_submenu [("top10", "set_coins:top10"), ("top100", "set_coins:top100"),
                         ("all", "set_coins:all")], none⟩
  else if data = "menu_mode" then
    some ⟨none, "Выбери режим сигналов:",
          build_submenu [("short", "set_mode:short"), ("long", "set_mode:long"),
                         ("both", "set_mode:both")], none⟩
  else if pyStartswith data "set_profile:" then
    saveResult { s with profile := .str (splitTail data) }
  else if pyStartswith data "set_tf:" then
    saveResult { s with timeframe := .str (splitTail data) }
  else if pyStartswith data "set_pump:" then
    match pyInt? (splitTail data) with
    | none => none
    | some n => saveResult { s with pump_pct := .int n }
  else if pyStartswith data "set_vol:" then
    saveResult { s with volume_bucket := .str (splitTail data) }
  else if pyStartswith data "set_mc:" then
    saveResult { s with marketcap := .str (splitTail data) }
  else if pyStartswith data "set_coins:" then
    saveResult { s with coins_scope := .str (splitTail data) }
  else if pyStartswith data "set_mode:" then
    saveResult { s with mode := .str (splitTail data) }
  else
    some ⟨none, panelText s, build_main_menu s, none⟩

/-- Whether the needle occurs contiguously inside the haystack. -/
def containsSub (needle : List Char) : List Char → Bool
  | [] => needle.isEmpty
  | c :: rest => leadsWith needle (c :: rest) || containsSub needle rest

/-- Python `needle in hay` on strings. -/
def strContains (hay needle : String) : Bool :=
  containsSub needle.data hay.data

/-- The two atomic file operations each of two overlapping
set_user_settings calls (for users A and B) performs: reading the whole
table and atomically replacing the whole table. -/
inductive SaveAction where
  | readA
  | writeA
  | readB
  | writeB
deriving DecidableEq

/-- The shared file plus each call's private snapshot of the table. -/
structure ConcState where
  file : TableFile
  snapA : Option (List (String × JValue))
  snapB : Option (List (String × JValue))

/-- One atomic step of the pair of concurrent saves: a read takes a
snapshot of the table, a write stores the caller's record into its own
snapshot and atomically replaces the file with the result. -/
def concStep (uidA uidB : Int) (rA rB : UserSettings)
    (st : ConcState) : SaveAction → ConcState
  | .readA => { st with snapA := some (load_all_settings st.file) }
  | .writeA =>
    match st.snapA with
    | some d =>
        { st with file := save_all_settings (dictSet d (toString uidA) (.obj (asdict rA))) }
    | none => st
  | .readB => { st with snapB := some (load_all_settings st.file) }
  | .writeB =>
    match st.snapB with
    | some d =>
        { st with file := save_all_settings (dictSet d (toString uidB) (.obj (asdict rB))) }
    | none => st

/-- The file left behind after running an interleaving of the two saves. -/
def runSaves (uidA uidB : Int) (rA rB : UserSettings) (f0 : TableFile)
    (acts : List SaveAction) : TableFile :=
  (acts.foldl (concStep uidA uidB rA rB) ⟨f0, none, none⟩).file

/-- The six interleavings of the two reads and two writes in which each
save reads before it writes. -/
def schedules : List (List SaveAction) :=
  [[.readA, .writeA, .readB, .writeB],
   [.readB, .writeB, .readA, .writeA],
   [.readA, .readB, .writeA, .writeB],
   [.readA, .readB, .writeB, .writeA],
   [.readB, .readA, .writeA, .writeB],
   [.readB, .readA, .writeB, .writeA]]

/-- The settings record named by the deterministic-preview property. -/
def previewInput : UserSettings :=
  { notifications := .bool true
    profile := .str "conservative"
    timeframe := .str "5m"
    pump_pct := .int 10
    volume_bucket := .str "50k-200k"
    marketcap := .str ">10M"
    coins_scope := .str "top100"
    mode := .str "short" }

/-- The exact-match callback tokens recognized by on_callback. -/
def commandTokens : List String :=
  ["refresh", "back", "reset", "toggle_notifications", "test_signal",
   "menu_profile", "menu_timeframe", "menu_pump", "menu_volume",
   "menu_marketcap", "menu_coins", "menu_mode"]

/-- The value-setting token patterns recognized by on_callback. -/
def setTokens : List String :=
  ["set_profile:", "set_tf:", "set_pump:", "set_vol:", "set_mc:",
   "set_coins:", "set_mode:"]

/-- A record for user A that differs from the defaults in pump_pct. -/
def recordA : UserSettings := { DEFAULT_SETTINGS with pump_pct := .int 20 }

/-- A record for user B that differs from the defaults in mode. -/
def recordB : UserSettings := { DEFAULT_SETTINGS with mode := .str "long" }

/-- Looking up the key just stored by dictSet yields the stored value. -/
theorem dictGet?_dictSet (d : List (String × JValue)) (k : String) (v : JValue) :
    dictGet? (dictSet d k v) k = some v := by
  induction d with
  | nil => simp [dictSet, dictGet?]
  | cons p rest ih =>
    by_cases h : p.1 = k
    · simp [dictSet, dictGet?, h]
    · simp [dictSet, dictGet?, h, ih]

/-- dictSet leaves lookups of other keys unchanged. -/
theorem dictGet?_dictSet_ne (d : List (String × JValue)) (k' k : String) (v : JValue)
    (h : k' ≠ k) : dictGet? (dictSet d k' v) k = dictGet? d k := by
  induction d with
  | nil => simp [dictSet, dictGet?, h]
  | cons p rest ih =>
    by_cases h1 : p.1 = k'
    · subst h1
      simp [dictSet, dictGet?, h, Ne.symm h]
    · by_cases h2 : p.1 = k
      · simp [dictSet, dictGet?, h1, h2, Ne.symm h]
      · simp [dictSet, dictGet?, h1, h2, ih]

/-- Rebuilding a record from its own asdict image merged over the defaults
recovers the record exactly. -/
theorem kwargs_asdict (s : UserSettings) :
    userSettingsOfKwargs (dictUpdate (asdict DEFAULT_SETTINGS) (asdict s)) = some s := rfl

/-- Unfolding of set_user_settings into its table operations. -/
theorem set_user_settings_eq (uid : Int) (s : UserSettings) (f : TableFile) :
    set_user_settings uid s f =
      TableFile.content
        (.obj (dictSet (load_all_settings f) (toString uid) (.obj (asdict s)))) := rfl

/-- Loading a file whose content is a JSON object yields its entries. -/
theorem load_all_content_obj (d : List (String × JValue)) :
    load_all_settings (TableFile.content (.obj d)) = d := rfl

/-- Keys of a dict after dictSet come from the dict or are the new key. -/
theorem dictSet_keys {P : String → Prop} (d : List (String × JValue)) (k : String)
    (v : JValue) (hd : ∀ p ∈ d, P p.1) (hk : P k) :
    ∀ p ∈ dictSet d k v, P p.1 := by
  induction d with
  | nil =>
    intro p hp
    simp [dictSet] at hp
    rw [hp]
    exact hk
  | cons q rest ih =>
    intro p hp
    by_cases h : q.1 = k
    · simp [dictSet, h] at hp
      rcases hp with h1 | h1
      · rw [h1]; exact hk
      · exact hd p (List.mem_cons_of_mem q h1)
    · simp [dictSet, h] at hp
      rcases hp with h1 | h1
      · rw [h1]; exact hd q (List.mem_cons_self q rest)
      · exact ih (fun p hp => hd p (List.mem_cons_of_mem q hp)) p h1

/-- Keys of an updated dict come from the base or from the update. -/
theorem dictUpdate_keys {P : String → Prop} (base other : List (String × JValue))
    (hb : ∀ p ∈ base, P p.1) (ho : ∀ p ∈ other, P p.1) :
    ∀ p ∈ dictUpdate base other, P p.1 := by
  induction other generalizing base with
  | nil => exact hb
  | cons kv rest ih =>
    exact ih (dictSet base kv.1 kv.2)
      (dictSet_keys base kv.1 kv.2 hb (ho kv (List.mem_cons_self kv rest)))
      (fun p hp => ho p (List.mem_cons_of_mem kv hp))

/-- Updating with entries that avoid a key leaves that key's lookup alone. -/
theorem dictGet?_dictUpdate_none (base other : List (String × JValue)) (k : String)
    (h : ∀ p ∈ other, p.1 ≠ k) :
    dictGet? (dictUpdate base other) k = dictGet? base k := by
  induction other generalizing base with
  | nil => rfl
  | cons kv rest ih =>
    rw [show dictUpdate base (kv :: rest) = dictUpdate (dictSet base kv.1 kv.2) rest from rfl]
    rw [ih (dictSet base kv.1 kv.2) (fun p hp => h p (List.mem_cons_of_mem kv hp))]
    exact dictGet?_dictSet_ne base kv.1 k kv.2 (h kv (List.mem_cons_self kv rest))

/-- Running the fully serialized schedule stores both entries in order. -/
theorem runSaves_serialized (uidA uidB : Int) (rA rB : UserSettings) (f0 : TableFile) :
    runSaves uidA uidB rA rB f0 [.readA, .writeA, .readB, .writeB] =
      TableFile.content (.obj
        (dictSet (dictSet (load_all_settings f0) (toString uidA) (.obj (asdict rA)))
          (toString uidB) (.obj (asdict rB)))) := rfl

/-- C1 counterexample: the claim says on_callback with token set_pump:999
(value 999 outside the domain of pump_pct) performs no save and returns the
main menu of the unchanged settings; on DEFAULT_SETTINGS the handler in
fact saves, and the returned markup is the main menu of the record mutated
to pump_pct = 999. -/
theorem set_pump_999_mutates_and_saves_cex :
    (on_callback "set_pump:999" DEFAULT_SETTINGS).map (fun r => r.saved.isSome) = some true ∧
    (on_callback "set_pump:999" DEFAULT_SETTINGS).map (fun r => r.markup) =
      some (build_main_menu { DEFAULT_SETTINGS with pump_pct := JValue.int 999 }) := ⟨rfl, rfl⟩

/-- C1 (amended): for every settings record s, the handler applies no
domain validation to set_pump values: set_pump:999 mutates pump_pct to
999, saves the mutated record, and returns the saved-confirmation screen
rendered from the mutated settings. -/
theorem set_pump_999_saves_mutated_record (s : UserSettings) :
    on_callback "set_pump:999" s =
      some { saved := some { s with pump_pct := JValue.int 999 },
             text := "✅ Сохранено.\n\n" ++ status_text { s with pump_pct := JValue.int 999 },
             markup := build_main_menu { s with pump_pct := JValue.int 999 },
             extraMessage := none } := rfl

/-- C2 counterexample: the claim says a stored entry missing profile and
carrying an unknown extra key foo loads with profile defaulted and foo
ignored; in fact the merge retains foo and the record constructor rejects
it, so the load fails instead of succeeding. -/
theorem load_unknown_key_raises_cex :
    get_user_settings 5 (TableFile.content (.obj [("5", .obj [("foo", .int 1)])])) = none := rfl

/-- C2 (amended): when the stored entry is an object all of whose keys are
dataclass field names and which lacks profile, the load succeeds and the
missing profile field is filled with its default "normal". -/
theorem load_known_keys_fills_profile_default (uid : Int) (f : TableFile)
    (kvs : List (String × JValue))
    (hent : dictGet? (load_all_settings f) (toString uid) = some (JValue.obj kvs))
    (hknown : ∀ p ∈ kvs, p.1 ∈ fieldNames)
    (hnop : ∀ p ∈ kvs, p.1 ≠ "profile") :
    ∃ r, get_user_settings uid f = some r ∧ r.profile = JValue.str "normal" := by
  have hbase : ∀ p ∈ asdict DEFAULT_SETTINGS, p.1 ∈ fieldNames := by decide
  have hall : ∀ p ∈ dictUpdate (asdict DEFAULT_SETTINGS) kvs, p.1 ∈ fieldNames :=
    dictUpdate_keys _ _ hbase hknown
  unfold get_user_settings
  rw [hent]
  show (∃ r, userSettingsOfKwargs (dictUpdate (asdict DEFAULT_SETTINGS) kvs) = some r ∧ _)
  unfold userSettingsOfKwargs
  rw [if_pos hall]
  refine ⟨_, rfl, ?_⟩
  show (dictGet? (dictUpdate (asdict DEFAULT_SETTINGS) kvs) "profile").getD (JValue.str "normal") =
    JValue.str "normal"
  rw [dictGet?_dictUpdate_none _ _ _ hnop]
  rfl

/-- C2 witness: a concrete table entry for user 7 holding only the known
key notifications loads with profile defaulted to "normal". -/
theorem load_known_keys_fills_profile_default_witness :
    ∃ r, get_user_settings 7
        (TableFile.content (.obj [("7", .obj [("notifications", .bool false)])])) = some r ∧
      r.profile = JValue.str "normal" :=
  load_known_keys_fills_profile_default 7
    (TableFile.content (.obj [("7", .obj [("notifications", .bool false)])]))
    [("notifications", .bool false)] rfl (by decide) (by decide)

/-- C3: for every user, table state, and domain-valid record, saving the
record and loading it back returns exactly that record. -/
theorem save_load_round_trip (uid : Int) (f : TableFile) (s : UserSettings)
    (_h : domainValid s = true) :
    get_user_settings uid (set_user_settings uid s f) = some s := by
  rw [set_user_settings_eq]
  unfold get_user_settings
  rw [load_all_content_obj, dictGet?_dictSet]
  exact kwargs_asdict s

/-- C3 witness: the default record is domain-valid and round-trips for
user 3 through an initially missing table. -/
theorem save_load_round_trip_witness :
    domainValid DEFAULT_SETTINGS = true ∧
    get_user_settings 3 (set_user_settings 3 DEFAULT_SETTINGS .missing) =
      some DEFAULT_SETTINGS :=
  ⟨by decide, save_load_round_trip 3 .missing DEFAULT_SETTINGS (by decide)⟩

/-- C4 counterexample: the claim says a malformed value part such as
set_pump:abc is recovered as Unknown without an error; in fact the token
matches the set_pump prefix and int("abc") raises, so the handler fails. -/
theorem set_pump_malformed_value_raises_cex :
    on_callback "set_pump:abc" DEFAULT_SETTINGS = none := rfl

/-- C4 (amended): a callback token matching none of the recognized
commands and none of the value-setting patterns is handled as the unknown
event: no save, no error, and the main menu rendered from the unchanged
settings. -/
theorem unrecognized_token_falls_back (data : String) (s : UserSettings)
    (hc : data ∉ commandTokens)
    (hp : ∀ p ∈ setTokens, pyStartswith data p = false) :
    on_callback data s =
      some { saved := none, text := panelText s,
             markup := build_main_menu s, extraMessage := none } := by
  have h1 : data ≠ "refresh" := fun e => hc (by rw [e]; decide)
  have h2 : data ≠ "back" := fun e => hc (by rw [e]; decide)
  have h3 : data ≠ "reset" := fun e => hc (by rw [e]; decide)
  have h4 : data ≠ "toggle_notifications" := fun e => hc (by rw [e]; decide)
  have h5 : data ≠ "test_signal" := fun e => hc (by rw [e]; decide)
  have h6 : data ≠ "menu_profile" := fun e => hc (by rw [e]; decide)
  have h7 : data ≠ "menu_timeframe" := fun e => hc (by rw [e]; decide)
  have h8 : data ≠ "menu_pump" := fun e => hc (by rw [e]; decide)
  have h9 : data ≠ "menu_volume" := fun e => hc (by rw [e]; decide)
  have h10 : data ≠ "menu_marketcap" := fun e => hc (by rw [e]; decide)
  have h11 : data ≠ "menu_coins" := fun e => hc (by rw [e]; decide)
  have h12 : data ≠ "menu_mode" := fun e => hc (by rw [e]; decide)
  have g1 : pyStartswith data "set_profile:" = false := hp _ (by decide)
  have g2 : pyStartswith data "set_tf:" = false := hp _ (by decide)
  have g3 : pyStartswith data "set_pump:" = false := hp _ (by decide)
  have g4 : pyStartswith data "set_vol:" = false := hp _ (by decide)
  have g5 : pyStartswith data "set_mc:" = false := hp _ (by decide)
  have g6 : pyStartswith data "set_coins:" = false := hp _ (by decide)
  have g7 : pyStartswith data "set_mode:" = false := hp _ (by decide)
  simp [on_callback, h1, h2, h3, h4, h5, h6, h7, h8, h9, h10, h11, h12,
        g1, g2, g3, g4, g5, g6, g7]

/-- C4 witness: the concrete unknown token zzz falls back to the main menu
of the unchanged default settings with no save. -/
theorem unrecognized_token_falls_back_witness :
    on_callback "zzz" DEFAULT_SETTINGS =
      some { saved := none, text := panelText DEFAULT_SETTINGS,
             markup := build_main_menu DEFAULT_SETTINGS, extraMessage := none } :=
  unrecognized_token_falls_back "zzz" DEFAULT_SETTINGS (by decide) (by decide)

set_option maxRecDepth 8000

/-- C5 counterexample: on the claim's input the rendered text does not
contain the literal substring "Direction: SHORT" — the renderer emits the
Markdown form with asterisks around the label instead. -/
theorem preview_plain_direction_substring_cex :
    (build_test_signal_text previewInput).map
      (fun t => strContains t "Direction: SHORT") = some false := rfl

/-- C5 (amended): the preview renderer is a pure function of the settings
and, on the claim's input, its output contains the substrings
"*Direction:* SHORT", "*Confidence:* HIGH", "рост 17% за 5m" and
"объём ~120k"; the direction and confidence lines carry Markdown asterisks
around their labels. -/
theorem preview_contains_markdown_substrings :
    (build_test_signal_text previewInput).map
      (fun t => strContains t "*Direction:* SHORT" && strContains t "*Confidence:* HIGH" &&
        strContains t "рост 17% за 5m" && strContains t "объём ~120k") = some true := rfl

/-- C6 counterexample: the claim says load never fails; a table entry that
is an object with an unknown key makes the record constructor raise, so
load fails for that user. -/
theorem load_bad_entry_raises_cex :
    get_user_settings 9 (TableFile.content (.obj [("9", .obj [("bar", .int 1)])])) = none := rfl

/-- C6 (amended): load returns exactly DEFAULT_SETTINGS for a user with no
stored entry, and treats a missing or unparseable table as empty, again
returning DEFAULT_SETTINGS; storage-level errors are never propagated,
though a malformed individual entry can still make load fail. -/
theorem load_missing_user_or_corrupt_table_defaults (uid : Int) (f : TableFile)
    (h : dictGet? (load_all_settings f) (toString uid) = none) :
    get_user_settings uid f = some DEFAULT_SETTINGS ∧
    get_user_settings uid TableFile.missing = some DEFAULT_SETTINGS ∧
    get_user_settings uid TableFile.unparsable = some DEFAULT_SETTINGS := by
  refine ⟨?_, rfl, rfl⟩
  unfold get_user_settings
  rw [h]
  rfl

/-- C6 witness: user 7 has no entry in a table that only stores user 9, so
the load yields the defaults, as do a missing and an unparseable table. -/
theorem load_missing_user_or_corrupt_table_defaults_witness :
    get_user_settings 7 (TableFile.content (.obj [("9", .str "x")])) = some DEFAULT_SETTINGS ∧
    get_user_settings 7 TableFile.missing = some DEFAULT_SETTINGS ∧
    get_user_settings 7 TableFile.unparsable = some DEFAULT_SETTINGS :=
  load_missing_user_or_corrupt_table_defaults 7
    (TableFile.content (.obj [("9", .str "x")])) rfl

/-- C7: for every settings record s, the reset token saves
DEFAULT_SETTINGS as the user's record and returns the main menu rendered
from DEFAULT_SETTINGS. -/
theorem reset_restores_defaults (s : UserSettings) :
    on_callback "reset" s =
      some { saved := some DEFAULT_SETTINGS,
             text := "♻️ Сброшено к настройкам по умолчанию.\n\n" ++
               status_text DEFAULT_SETTINGS,
             markup := build_main_menu DEFAULT_SETTINGS,
             extraMessage := none } := rfl

/-- C8: with an empty allow-list every identifier is admitted; with a
non-empty allow-list an identifier is admitted exactly when it is listed,
and an update without a chat is rejected. -/
theorem is_allowed_semantics (allowed : List Int) (eff : Option Int) (c : Int)
    (h : allowed ≠ []) :
    is_allowed [] eff = true ∧
    (is_allowed allowed (some c) = true ↔ c ∈ allowed) ∧
    is_allowed allowed none = false := by
  refine ⟨rfl, ?_, ?_⟩
  · cases allowed with
    | nil => exact absurd rfl h
    | cons a as => simp [is_allowed]
  · cases allowed with
    | nil => exact absurd rfl h
    | cons a as => simp [is_allowed]

/-- C8 witness: the empty list admits chat 7, and the singleton list [5]
admits exactly chat 5 and rejects a chat-less update. -/
theorem is_allowed_semantics_witness :
    is_allowed [] (some 7) = true ∧
    (is_allowed [5] (some 5) = true ↔ (5 : Int) ∈ [(5 : Int)]) ∧
    is_allowed [5] none = false :=
  is_allowed_semantics [5] (some 7) 5 (by decide)

/-- C9 counterexample: under the overlapped schedule in which both saves
read the table before either writes — a valid interleaving of the two
read-modify-write saves — user A's freshly saved record is lost: loading
user 1 afterwards does not return recordA. -/
theorem overlapping_saves_lose_record_cex :
    [SaveAction.readA, .readB, .writeA, .writeB] ∈ schedules ∧
    get_user_settings 1
        (runSaves 1 2 recordA recordB TableFile.missing
          [SaveAction.readA, .readB, .writeA, .writeB]) ≠ some recordA := by
  refine ⟨by decide, fun h => ?_⟩
  have h1 : get_user_settings 1
      (runSaves 1 2 recordA recordB TableFile.missing
        [SaveAction.readA, .readB, .writeA, .writeB]) = some DEFAULT_SETTINGS := rfl
  rw [h1] at h
  have h2 : DEFAULT_SETTINGS = recordA := Option.some.inj h
  have h3 := congrArg UserSettings.pump_pct h2
  have h4 : (10 : Int) = 20 := JValue.int.inj h3
  exact absurd h4 (by decide)

/-- C9 (amended): when the two saves for distinct users are serialized —
one completes its read and atomic whole-table write before the other
starts — loading each user afterwards returns that user's own record
intact. -/
theorem serialized_saves_preserve_records (uidA uidB : Int) (rA rB : UserSettings)
    (f0 : TableFile) (h : toString uidA ≠ toString uidB) :
    get_user_settings uidA
        (runSaves uidA uidB rA rB f0 [.readA, .writeA, .readB, .writeB]) = some rA ∧
    get_user_settings uidB
        (runSaves uidA uidB rA rB f0 [.readA, .writeA, .readB, .writeB]) = some rB := by
  rw [runSaves_serialized]
  constructor
  · unfold get_user_settings
    rw [load_all_content_obj, dictGet?_dictSet_ne _ _ _ _ (Ne.symm h), dictGet?_dictSet]
    exact kwargs_asdict rA
  · unfold get_user_settings
    rw [load_all_content_obj, dictGet?_dictSet]
    exact kwargs_asdict rB

/-- C9 witness: serialized saves for users 1 and 2 starting from a missing
table leave both records loadable intact. -/
theorem serialized_saves_preserve_records_witness :
    get_user_settings 1
        (runSaves 1 2 recordA recordB TableFile.missing
          [.readA, .writeA, .readB, .writeB]) = some recordA ∧
    get_user_settings 2
        (runSaves 1 2 recordA recordB TableFile.missing
          [.readA, .writeA, .readB, .writeB]) = some recordB :=
  serialized_saves_preserve_records 1 2 recordA recordB TableFile.missing (by decide)

/-- C10: a stored entry whose value is not a JSON object (a string,
number, list, boolean or null) is ignored entirely: the load returns
exactly the full default record. -/
theorem non_dict_entry_yields_defaults (uid : Int) (f : TableFile) (v : JValue)
    (hent : dictGet? (load_all_settings f) (toString uid) = some v)
    (hv : v.isObj = false) :
    get_user_settings uid f = some DEFAULT_SETTINGS := by
  unfold get_user_settings
  rw [hent]
  cases v with
  | obj kvs => exact absurd hv (by simp [JValue.isObj])
  | null => rfl
  | bool b => rfl
  | int n => rfl
  | str t => rfl
  | arr xs => rfl

/-- C10 witness: a table storing the bare number 3 for user 4 loads as the
full default record. -/
theorem non_dict_entry_yields_defaults_witness :
    get_user_settings 4 (TableFile.content (.obj [("4", .int 3)])) = some DEFAULT_SETTINGS :=
  non_dict_entry_yields_defaults 4 (TableFile.content (.obj [("4", .int 3)])) (.int 3) rfl rfl

end PumpBot
